import Mathlib

/-!
Shallow embedding of the cluster metadata manager of this repository
(`src/server/cluster/manager.go`, package `cluster`) together with the
collaborator components it drives (ID allocator, durable cluster storage,
per-cluster topology, coordinator).  `manager.go` is the authoritative
source; the collaborators (`Cluster`, `id.Allocator`, `storage.Storage`,
the coordinator) are not part of the provided sources, so they are
modelled from the specification and marked as such in their doc comments.

Go `uint32`/`uint64` identifiers are represented as `Nat`: none of the
verified properties involve wrap-around arithmetic.  Stateful Go code is
embedded by explicit state passing: every manager operation takes a
`ManagerState` and returns its result together with the post-state.
Fallible collaborator calls are driven by an `Env` of fault-injection
flags, one per distinct failure point, so that error paths of
`manager.go` are reachable in the model exactly where the Go code
checks `err != nil`.
-/

/-- Error kinds of the error taxonomy (spec section 7): validation,
already-exists, not-found, allocation and storage errors are
distinguishable kinds that survive wrapping. -/
inductive ErrKind where
  | validation
  | alreadyExists
  | notFound
  | allocationErr
  | storageErr
  deriving DecidableEq, Repr

/-- An error value: a matchable kind plus a human-readable message built
up by wrapping (the Go code uses `errors.Wrap`/`WithCausef`, which keep
the root cause while adding context). -/
structure Err where
  kind : ErrKind
  msg : String
  deriving DecidableEq, Repr

/-- Wrapping an error (Go `errors.Wrap(err, ctx)` / `errors.Wrapf`):
adds context to the message and preserves the root cause's kind. -/
def wrapErr (ctx : String) (e : Err) : Err :=
  ⟨e.kind, ctx ++ ": " ++ e.msg⟩

/-- Go `ErrCreateCluster.WithCausef(...)`: the validation error returned
when `nodeCount < 1`. -/
def errCreateCluster (cause : String) : Err :=
  ⟨ErrKind.validation, "ErrCreateCluster: " ++ cause⟩

/-- Go `ErrClusterAlreadyExists`. -/
def errClusterAlreadyExists : Err :=
  ⟨ErrKind.alreadyExists, "cluster already exists"⟩

/-- Go `ErrClusterNotFound.WithCausef(...)` as produced by
`managerImpl.getCluster`. -/
def errClusterNotFound (clusterName : String) : Err :=
  ⟨ErrKind.notFound, "clusters manager getCluster, clusterName:" ++ clusterName⟩

instance {ε α : Type} [DecidableEq ε] [DecidableEq α] : DecidableEq (Except ε α) :=
  fun a b =>
    match a, b with
    | .ok x, .ok y =>
        if h : x = y then .isTrue (by rw [h]) else .isFalse (fun hx => by cases hx; exact h rfl)
    | .error x, .error y =>
        if h : x = y then .isTrue (by rw [h]) else .isFalse (fun hx => by cases hx; exact h rfl)
    | .ok _, .error _ => .isFalse (fun hx => by cases hx)
    | .error _, .ok _ => .isFalse (fun hx => by cases hx)

/-- Association-list lookup; the embedding of a Go `map` read
(`v, ok := m[k]`). -/
def alookup {α β : Type} [DecidableEq α] (k : α) : List (α × β) → Option β
  | [] => none
  | p :: l => if p.1 = k then some p.2 else alookup k l

/-- Association-list insert-or-replace; the embedding of a Go `map`
write (`m[k] = v`). -/
def aupdate {α β : Type} [DecidableEq α] (k : α) (v : β) : List (α × β) → List (α × β)
  | [] => [(k, v)]
  | p :: l => if p.1 = k then (k, v) :: l else p :: aupdate k v l

/-- Go `clusterpb.Cluster`: the persisted cluster record built by
`managerImpl.CreateCluster`. -/
structure ClusterPb where
  id : Nat
  name : String
  minNodeCount : Nat
  replicationFactor : Nat
  shardTotal : Nat
  deriving DecidableEq, Repr

/-- Table metadata (`t.meta` in `managerImpl.GetTables`): persisted id
and name of a table. -/
structure TableMeta where
  id : Nat
  name : String
  deriving DecidableEq, Repr

/-- Schema metadata (`t.schema` in `managerImpl.GetTables`): persisted
id and name of a schema. -/
structure SchemaMeta where
  id : Nat
  name : String
  deriving DecidableEq, Repr

/-- The internal `Table` handle returned by `cluster.GetOrCreateTable`:
its own metadata, its schema's metadata, and the owner node it was
associated with. -/
structure Table where
  meta : TableMeta
  schema : SchemaMeta
  node : String
  deriving DecidableEq, Repr

/-- Go `clusterpb.ShardRole`. -/
inductive ShardRole where
  | leader
  | follower
  deriving DecidableEq, Repr

/-- The cluster-internal per-shard record (`shardTablesWithRole` entries
read by `managerImpl.GetTables`, plus the node assignments used by
`GetShardIDs` and the coordinator). -/
structure ShardInfo where
  shardRole : ShardRole
  tables : List Table
  version : Nat
  nodes : List String
  deriving DecidableEq, Repr

/-- Go `cluster.TableInfo` (manager.go lines 24-29): the flattened
per-table projection returned to callers. -/
structure TableInfo where
  id : Nat
  name : String
  schemaID : Nat
  schemaName : String
  deriving DecidableEq, Repr

/-- Go `cluster.ShardTables` (manager.go lines 31-35): the per-shard
view returned by `managerImpl.GetTables`. -/
structure ShardTables where
  shardRole : ShardRole
  tables : List TableInfo
  version : Nat
  deriving DecidableEq, Repr

/-- Modelled from the spec: the in-memory state of one `Cluster`
(cluster.go is not among the provided sources).  Spec section 4.3: a
cluster owns its schema map, table map, shard table and node registry;
section 3 fixes the persisted attributes.  Schema and table id
allocation is embedded as a per-namespace monotone counter
(`nextSchemaID`, `nextTableID`), the spec's ID Allocator namespaces
`SchemaID`/`TableID` (section 4.2). -/
structure Cluster where
  meta : ClusterPb
  schemas : List (String × Nat)
  nextSchemaID : Nat
  tables : List ((String × String) × Table)
  nextTableID : Nat
  shards : List (Nat × ShardInfo)
  nodes : List (String × Nat)
  deriving DecidableEq, Repr

/-- Modelled from the spec: the durable state of the ID Allocator
namespace `ClusterID` (section 4.2) — a crash-safe monotone counter. -/
structure AllocState where
  next : Nat
  deriving DecidableEq, Repr

/-- Modelled from the spec: the durable metadata store's cluster
records (section 6, `ListClusters`/`CreateCluster`). -/
structure StorageState where
  clusterRecords : List ClusterPb
  deriving DecidableEq, Repr

/-- Fault-injection environment: one flag per fallible collaborator
call site of `manager.go` (`err != nil` checks).  A `true` flag makes
the corresponding collaborator call fail with the matching error kind. -/
structure Env where
  allocClusterIDFails : Bool
  storageCreateFails : Bool
  initFails : Bool
  loadFails : Bool
  registerNodeFails : Bool
  scatterFails : Bool
  deriving DecidableEq, Repr

/-- The state owned by `managerImpl` (manager.go lines 47-56): the
in-memory registry `clusters map[string]*Cluster`, plus the durable
states of its storage and cluster-id allocator collaborators. -/
structure ManagerState where
  clusters : List (String × Cluster)
  storage : StorageState
  alloc : AllocState
  deriving DecidableEq, Repr

/-- Modelled from the spec: `id.Allocator.Alloc` for the `ClusterID`
namespace (section 4.2).  Returns a fresh id and durably advances the
counter; on failure no id is handed out. -/
def allocClusterID (env : Env) (a : AllocState) : Except Err (Nat × AllocState) :=
  if env.allocClusterIDFails then .error ⟨ErrKind.allocationErr, "alloc cluster id failed"⟩
  else .ok (a.next, ⟨a.next + 1⟩)

/-- Modelled from the spec: the durable store's `CreateCluster(record)`
(section 6) — persists the record, failing if a record with the same id
or name already exists, and returns the persisted record. -/
def storageCreateCluster (env : Env) (s : StorageState) (pb : ClusterPb) :
    Except Err (ClusterPb × StorageState) :=
  if env.storageCreateFails then .error ⟨ErrKind.storageErr, "storage create cluster failed"⟩
  else if s.clusterRecords.any (fun r => r.name == pb.name || r.id == pb.id) then
    .error ⟨ErrKind.storageErr, "cluster record already exists"⟩
  else .ok (pb, ⟨s.clusterRecords ++ [pb]⟩)

/-- Go `NewCluster(clusterPb, ...)`, modelled from the spec: a fresh
in-memory `Cluster` around the persisted record, with empty maps; the
end-to-end scenario of spec section 8 fixes 1 as the first allocated
schema/table id. -/
def NewCluster (pb : ClusterPb) : Cluster :=
  { meta := pb, schemas := [], nextSchemaID := 1, tables := [], nextTableID := 1,
    shards := [], nodes := [] }

/-- Modelled from the spec: the shard table produced by `Cluster.init`
(section 4.3): `shardTotal` shards with no assigned node and an initial
version of zero. -/
def initialShards (shardTotal : Nat) : List (Nat × ShardInfo) :=
  (List.range shardTotal).map fun i =>
    (i, { shardRole := ShardRole.follower, tables := [], version := 0, nodes := [] })

/-- Modelled from the spec: `Cluster.init` (section 4.3): instantiate
`shardTotal` shards with no assigned node and version zero; persist
(persistence failure injected via `env.initFails`). -/
def clusterInit (env : Env) (c : Cluster) : Except Err Cluster :=
  if env.initFails then .error ⟨ErrKind.storageErr, "fail to init cluster"⟩
  else .ok { c with shards := initialShards c.meta.shardTotal }

/-- Modelled from the spec: `Cluster.Load` (section 4.3): reconstruct
the in-memory maps from durable storage.  With the store's
read-after-write consistency (section 6) and a single process, reloading
the state just written is the identity on success. -/
def clusterLoad (env : Env) (c : Cluster) : Except Err Cluster :=
  if env.loadFails then .error ⟨ErrKind.storageErr, "fail to load cluster"⟩
  else .ok c

/-- Embedding of `managerImpl.CreateCluster` (manager.go lines 85-136):
validate `nodeCount`, check the registry for the name, allocate a
cluster id, persist the record, construct/init/load the cluster, insert
it into the registry and return it.  The post-state is returned on every
path (error paths keep whatever mutations had already happened, exactly
as the in-place Go code does). -/
def CreateCluster (env : Env) (m : ManagerState) (clusterName : String)
    (initialNodeCount replicationFactor shardTotal : Nat) :
    Except Err Cluster × ManagerState :=
  if initialNodeCount < 1 then
    (.error (errCreateCluster "nodeCount must > 0"), m)
  else if (alookup clusterName m.clusters).isSome then
    (.error errClusterAlreadyExists, m)
  else
    match allocClusterID env m.alloc with
    | .error e =>
        (.error (wrapErr ("clusters manager CreateCluster, clusterName:" ++ clusterName) e), m)
    | .ok (clusterID, alloc₁) =>
      let m₁ : ManagerState := { m with alloc := alloc₁ }
      let clusterPb : ClusterPb :=
        { id := clusterID, name := clusterName, minNodeCount := initialNodeCount,
          replicationFactor := replicationFactor, shardTotal := shardTotal }
      match storageCreateCluster env m₁.storage clusterPb with
      | .error e => (.error (wrapErr "clusters manager CreateCluster" e), m₁)
      | .ok (pb, storage₁) =>
        let m₂ : ManagerState := { m₁ with storage := storage₁ }
        match clusterInit env (NewCluster pb) with
        | .error e =>
            (.error (wrapErr ("clusters manager CreateCluster, clusterName:" ++ clusterName) e), m₂)
        | .ok c₁ =>
          match clusterLoad env c₁ with
          | .error e =>
              (.error (wrapErr ("clusters manager CreateCluster, clusterName:" ++ clusterName) e), m₂)
          | .ok c₂ =>
            (.ok c₂, { m₂ with clusters := aupdate clusterName c₂ m₂.clusters })

/-- Embedding of `managerImpl.getCluster` (manager.go lines 246-254):
registry lookup under the read lock; `ErrClusterNotFound` when absent. -/
def getCluster (m : ManagerState) (clusterName : String) : Except Err Cluster :=
  match alookup clusterName m.clusters with
  | some c => .ok c
  | none => .error (errClusterNotFound clusterName)

/-- Modelled from the spec: `Cluster.GetOrCreateSchema` (section 4.3):
return the existing schema's id if present; otherwise allocate the next
schema id, persist, insert into the in-memory map and return it. -/
def getOrCreateSchema (c : Cluster) (schemaName : String) : Nat × Cluster :=
  match alookup schemaName c.schemas with
  | some sid => (sid, c)
  | none =>
      (c.nextSchemaID,
       { c with schemas := (schemaName, c.nextSchemaID) :: c.schemas,
                nextSchemaID := c.nextSchemaID + 1 })

/-- Modelled from the spec: `Cluster.GetOrCreateTable` (section 4.3):
get-or-create the schema, then return the existing table if present;
otherwise allocate the next table id, persist, insert into the
in-memory map (keyed by schema and table name), associate the table
with the calling node, and return the handle. -/
def getOrCreateTable (c : Cluster) (nodeName schemaName tableName : String) :
    Table × Cluster :=
  let sid := (getOrCreateSchema c schemaName).1
  let c₁ := (getOrCreateSchema c schemaName).2
  match alookup (schemaName, tableName) c₁.tables with
  | some t => (t, c₁)
  | none =>
      let t : Table :=
        { meta := { id := c₁.nextTableID, name := tableName },
          schema := { id := sid, name := schemaName }, node := nodeName }
      (t, { c₁ with tables := ((schemaName, tableName), t) :: c₁.tables,
                    nextTableID := c₁.nextTableID + 1 })

/-- Modelled from the spec: `Cluster.GetTables(shardIds, nodeName)`
(section 4.3): for each requested shard id, if it exists in the shard
map, return its role, version and table list; shard-to-table
association, not a node filter, is the primary key, so the table list
is node-agnostic. -/
def clusterGetTables (c : Cluster) (shardIDs : List Nat) (_nodeName : String) :
    List (Nat × ShardInfo) :=
  shardIDs.filterMap fun sid => (alookup sid c.shards).map fun s => (sid, s)

/-- Modelled from the spec: `Cluster.DropTable` (section 4.3): remove
the table from its schema's map and from the shard that lists it; bump
that shard's version; not-found error when the table is unknown. -/
def clusterDropTable (c : Cluster) (schemaName tableName : String) (tableID : Nat) :
    Except Err Cluster :=
  match alookup (schemaName, tableName) c.tables with
  | none => .error ⟨ErrKind.notFound, "table not found, tableName:" ++ tableName⟩
  | some _ =>
      .ok { c with
        tables := c.tables.filter fun p => p.1 != (schemaName, tableName),
        shards := c.shards.map fun p =>
          if p.2.tables.any (fun t => t.meta.id == tableID) then
            (p.1, { p.2 with
              tables := p.2.tables.filter fun t => t.meta.id != tableID,
              version := p.2.version + 1 })
          else p }

/-- Modelled from the spec: `Cluster.RegisterNode(node, lease)`
(section 4.3): upsert the node entry with a fresh lease; persist
(persistence failure injected via `env.registerNodeFails`). -/
def clusterRegisterNode (env : Env) (c : Cluster) (nodeName : String) (lease : Nat) :
    Except Err Cluster :=
  if env.registerNodeFails then .error ⟨ErrKind.storageErr, "fail to register node"⟩
  else .ok { c with nodes := aupdate nodeName lease c.nodes }

/-- Deterministic insertion of a string into a sorted list, used for
the spec's stable node-name order (section 4.4). -/
def insertSortedStr (s : String) : List String → List String
  | [] => [s]
  | x :: l => if s < x then s :: x :: l else x :: insertSortedStr s l

/-- Deterministic sort of node names (spec section 4.4: ties broken by
a stable node-name order). -/
def sortStrs (l : List String) : List String := l.foldr insertSortedStr []

/-- Modelled from the spec: the pure assignment pass of the
coordinator's shard scatter (section 4.4): shards already holding
enough replicas are left untouched; under-replicated shards are
assigned `min(replicationFactor, nodeCount)` nodes round-robin in the
stable node order and have their version bumped. -/
def scatterAssign (c : Cluster) : Cluster :=
  let nodeNames := sortStrs (c.nodes.map Prod.fst)
  let n := nodeNames.length
  if n = 0 then c
  else
    { c with shards := c.shards.map fun p =>
        let want := min c.meta.replicationFactor n
        if want ≤ p.2.nodes.length then p
        else (p.1, { p.2 with
          nodes := (List.range want).map fun j => nodeNames.getD ((p.1 + j) % n) "",
          version := p.2.version + 1 }) }

/-- Modelled from the spec: `coordinator.scatterShard` (section 4.4):
compute the new assignment and persist it before returning; a
persistence failure (injected via `env.scatterFails`) surfaces as a
storage error. -/
def scatterShard (env : Env) (c : Cluster) : Except Err Cluster :=
  if env.scatterFails then .error ⟨ErrKind.storageErr, "scatter shard failed"⟩
  else .ok (scatterAssign c)

/-- Shard ids currently assigned to a node (spec section 4.3,
`GetShardIDs`). -/
def assignedShardIDs (c : Cluster) (nodeName : String) : List Nat :=
  (c.shards.filter fun p => p.2.nodes.contains nodeName).map Prod.fst

/-- Modelled from the spec: `Cluster.GetShardIDs(node)` (section 4.3):
the shard ids currently assigned to `node`; not-found error if the node
is unknown to this cluster. -/
def getShardIDs (c : Cluster) (nodeName : String) : Except Err (List Nat) :=
  match alookup nodeName c.nodes with
  | none => .error ⟨ErrKind.notFound, "node not found, nodeName:" ++ nodeName⟩
  | some _ => .ok (assignedShardIDs c nodeName)

/-- Embedding of `managerImpl.AllocSchemaID` (manager.go lines
138-153): look up the cluster, get-or-create the schema, return its
id.  The updated cluster is written back to the registry (the Go code
mutates the shared `*Cluster` in place). -/
def AllocSchemaID (m : ManagerState) (clusterName schemaName : String) :
    Except Err Nat × ManagerState :=
  match getCluster m clusterName with
  | .error e => (.error (wrapErr "clusters manager AllocSchemaID" e), m)
  | .ok c =>
      (.ok (getOrCreateSchema c schemaName).1,
       { m with clusters := aupdate clusterName (getOrCreateSchema c schemaName).2 m.clusters })

/-- Embedding of `managerImpl.AllocTableID` (manager.go lines 155-169):
look up the cluster, get-or-create the table under the schema, return
the table handle. -/
def AllocTableID (m : ManagerState) (clusterName schemaName tableName nodeName : String) :
    Except Err Table × ManagerState :=
  match getCluster m clusterName with
  | .error e => (.error (wrapErr "clusters manager AllocTableID" e), m)
  | .ok c =>
      (.ok (getOrCreateTable c nodeName schemaName tableName).1,
       { m with clusters :=
          aupdate clusterName (getOrCreateTable c nodeName schemaName tableName).2 m.clusters })

/-- The projection loop body of `managerImpl.GetTables` (manager.go
lines 186-194): flatten each internal table into a `TableInfo` carrying
its id and name plus its schema's id and name, keeping the shard's role
and version. -/
def projectShardTables (s : ShardInfo) : ShardTables :=
  { shardRole := s.shardRole,
    tables := s.tables.map fun t =>
      { id := t.meta.id, name := t.meta.name,
        schemaID := t.schema.id, schemaName := t.schema.name },
    version := s.version }

/-- Embedding of `managerImpl.GetTables` (manager.go lines 171-197):
look up the cluster, fetch the shard-to-tables view, and project every
entry of that view (the Go loop ranges over the returned map, not over
the requested shard ids). -/
def GetTables (m : ManagerState) (clusterName nodeName : String) (shardIDs : List Nat) :
    Except Err (List (Nat × ShardTables)) × ManagerState :=
  match getCluster m clusterName with
  | .error e => (.error (wrapErr "clusters manager GetTables" e), m)
  | .ok c =>
      (.ok ((clusterGetTables c shardIDs nodeName).map fun p =>
        (p.1, projectShardTables p.2)), m)

/-- Embedding of `managerImpl.DropTable` (manager.go lines 199-212):
look up the cluster and delegate the drop, writing the updated cluster
back to the registry. -/
def DropTable (m : ManagerState) (clusterName schemaName tableName : String) (tableID : Nat) :
    Except Err Unit × ManagerState :=
  match getCluster m clusterName with
  | .error e => (.error (wrapErr "clusters manager DropTable" e), m)
  | .ok c =>
      match clusterDropTable c schemaName tableName tableID with
      | .error e => (.error (wrapErr "clusters manager DropTable" e), m)
      | .ok c₁ => (.ok (), { m with clusters := aupdate clusterName c₁ m.clusters })

/-- Embedding of `managerImpl.RegisterNode` (manager.go lines 214-230):
look up the cluster, register/refresh the node's lease, then
synchronously run the coordinator's shard scatter before returning.
Like the in-place Go code, a scatter failure leaves the already
persisted node registration in effect. -/
def RegisterNode (env : Env) (m : ManagerState) (clusterName nodeName : String) (lease : Nat) :
    Except Err Unit × ManagerState :=
  match getCluster m clusterName with
  | .error e => (.error (wrapErr "clusters manager RegisterNode" e), m)
  | .ok c =>
      match clusterRegisterNode env c nodeName lease with
      | .error e => (.error (wrapErr "clusters manager RegisterNode" e), m)
      | .ok c₁ =>
          match scatterShard env c₁ with
          | .error e =>
              (.error (wrapErr "RegisterNode" e),
               { m with clusters := aupdate clusterName c₁ m.clusters })
          | .ok c₂ => (.ok (), { m with clusters := aupdate clusterName c₂ m.clusters })

/-- Embedding of `managerImpl.GetShards` (manager.go lines 232-244):
look up the cluster and return the shard ids assigned to the node. -/
def GetShards (m : ManagerState) (clusterName nodeName : String) :
    Except Err (List Nat) × ManagerState :=
  match getCluster m clusterName with
  | .error e => (.error (wrapErr "clusters manager GetShards" e), m)
  | .ok c =>
      match getShardIDs c nodeName with
      | .error e => (.error (wrapErr "clusters manager GetShards" e), m)
      | .ok ids => (.ok ids, m)

/-- The node-registration-then-scatter composite applied by a
successful `RegisterNode`: the cluster with the node's lease upserted
and the scatter pass applied. -/
def scatteredAfterRegister (c : Cluster) (nodeName : String) (lease : Nat) : Cluster :=
  scatterAssign { c with nodes := aupdate nodeName lease c.nodes }

/-- Well-formedness invariant of a cluster's id maps: every assigned
schema id is below the schema counter and distinct schema names hold
distinct ids; likewise for table ids keyed by (schema name, table
name).  It holds for `NewCluster` and is preserved by the get-or-create
operations. -/
def ClusterWF (c : Cluster) : Prop :=
  (∀ p ∈ c.schemas, p.2 < c.nextSchemaID) ∧
  (∀ p ∈ c.schemas, ∀ q ∈ c.schemas, p.2 = q.2 → p.1 = q.1) ∧
  (∀ p ∈ c.tables, p.2.meta.id < c.nextTableID) ∧
  (∀ p ∈ c.tables, ∀ q ∈ c.tables, p.2.meta.id = q.2.meta.id → p.1 = q.1)

instance (c : Cluster) : Decidable (ClusterWF c) := by
  unfold ClusterWF
  infer_instance

/-- Error kind of a result, `none` on success. -/
def resultErrKind {α : Type} : Except Err α → Option ErrKind
  | .error e => some e.kind
  | .ok _ => none

/-- The list payload of a successful `GetTables` call (empty on
error); used to state key-set properties of the returned map. -/
def getTablesRet (m : ManagerState) (clusterName nodeName : String) (shardIDs : List Nat) :
    List (Nat × ShardTables) :=
  match (GetTables m clusterName nodeName shardIDs).1 with
  | .ok r => r
  | .error _ => []

/-- Number of persisted cluster records carrying a given name. -/
def recordCountFor (s : StorageState) (clusterName : String) : Nat :=
  (s.clusterRecords.filter fun r => r.name == clusterName).length

/-- Fault-free environment: every collaborator call succeeds. -/
def envOk : Env := ⟨false, false, false, false, false, false⟩

/-- Concrete initial manager state: empty registry, empty store,
cluster-id counter at zero. -/
def mgr0 : ManagerState := ⟨[], ⟨[]⟩, ⟨0⟩⟩

/-- Concrete persisted record of the scenario cluster `db1`
(spec section 8: nodeCount 3, replication factor 2, shard total 4). -/
def pbDb1 : ClusterPb := ⟨0, "db1", 3, 2, 4⟩

/-- Concrete in-memory cluster as produced by a fault-free
`CreateCluster` for `db1`. -/
def clusterDb1 : Cluster := { NewCluster pbDb1 with shards := initialShards 4 }

/-- Concrete manager state after the fault-free creation of `db1`. -/
def mgr1 : ManagerState := ⟨[("db1", clusterDb1)], ⟨[pbDb1]⟩, ⟨1⟩⟩

/-- Environment in which only topology initialization fails. -/
def envInitFail : Env := ⟨false, false, true, false, false, false⟩

/-- Cluster `db1` after creating schema `a`. -/
def clusterDb1A : Cluster := { clusterDb1 with schemas := [("a", 1)], nextSchemaID := 2 }

/-- Cluster `db1` after creating schemas `a` and `b`. -/
def clusterDb1AB : Cluster :=
  { clusterDb1 with schemas := [("b", 2), ("a", 1)], nextSchemaID := 3 }

/-- Manager state holding `clusterDb1A`. -/
def mgrA : ManagerState := ⟨[("db1", clusterDb1A)], ⟨[pbDb1]⟩, ⟨1⟩⟩

/-- Manager state holding `clusterDb1AB`. -/
def mgrAB : ManagerState := ⟨[("db1", clusterDb1AB)], ⟨[pbDb1]⟩, ⟨1⟩⟩

/-- Concrete table `ta` of schema `sa` as first allocated in `db1`. -/
def tbTa : Table := ⟨⟨1, "ta"⟩, ⟨1, "sa"⟩, "n1"⟩

/-- Concrete table `tb` of schema `sa` as allocated after `ta`. -/
def tbTb : Table := ⟨⟨2, "tb"⟩, ⟨1, "sa"⟩, "n3"⟩

/-- Cluster `db1` after allocating table `ta` in schema `sa`. -/
def clusterDb1T : Cluster :=
  { clusterDb1 with
      schemas := [("sa", 1)], nextSchemaID := 2,
      tables := [(("sa", "ta"), tbTa)], nextTableID := 2 }

/-- Cluster `db1` after additionally allocating table `tb` in `sa`. -/
def clusterDb1T2 : Cluster :=
  { clusterDb1T with
      tables := [(("sa", "tb"), tbTb), (("sa", "ta"), tbTa)],
      nextTableID := 3 }

/-- Manager state holding `clusterDb1T`. -/
def mgrT : ManagerState := ⟨[("db1", clusterDb1T)], ⟨[pbDb1]⟩, ⟨1⟩⟩

/-- Manager state holding `clusterDb1T2`. -/
def mgrT2 : ManagerState := ⟨[("db1", clusterDb1T2)], ⟨[pbDb1]⟩, ⟨1⟩⟩

/-- Cluster `db1` after a successful registration of `node-1` followed
by the scatter pass. -/
def clusterDb1Scat : Cluster := scatteredAfterRegister clusterDb1 "node-1" 30

/-- Manager state after registering `node-1` in `db1`. -/
def mgrReg : ManagerState := ⟨[("db1", clusterDb1Scat)], ⟨[pbDb1]⟩, ⟨1⟩⟩

/-! Helper lemmas about the association-list map embedding and the
get-or-create operations. -/

theorem alookup_aupdate_self {α β : Type} [DecidableEq α] (k : α) (v : β)
    (l : List (α × β)) : alookup k (aupdate k v l) = some v := by
  induction l with
  | nil => simp [aupdate, alookup]
  | cons p l ih =>
      by_cases h : p.1 = k
      · simp [aupdate, h, alookup]
      · simp [aupdate, h, alookup, ih]

theorem alookup_mem {α β : Type} [DecidableEq α] {k : α} {v : β} {l : List (α × β)}
    (h : alookup k l = some v) : (k, v) ∈ l := by
  induction l with
  | nil => simp [alookup] at h
  | cons p l ih =>
      by_cases hp : p.1 = k
      · simp [alookup, hp] at h
        cases p
        subst hp
        subst h
        exact List.mem_cons_self _ _
      · simp [alookup, hp] at h
        exact List.mem_cons_of_mem _ (ih h)

theorem alookup_map_value {α β γ : Type} [DecidableEq α] (f : β → γ) (k : α)
    (l : List (α × β)) :
    alookup k (l.map fun p => (p.1, f p.2)) = (alookup k l).map f := by
  induction l with
  | nil => simp [alookup]
  | cons p l ih =>
      by_cases hp : p.1 = k
      · simp [alookup, hp]
      · simp [alookup, hp, ih]

theorem getOrCreateSchema_lookup_self (c : Cluster) (s : String) :
    alookup s ((getOrCreateSchema c s).2).schemas = some (getOrCreateSchema c s).1 := by
  unfold getOrCreateSchema
  cases h : alookup s c.schemas with
  | some sid => simpa using h
  | none => simp [alookup]

theorem getOrCreateSchema_of_lookup {c : Cluster} {s : String} {i : Nat}
    (h : alookup s c.schemas = some i) : getOrCreateSchema c s = (i, c) := by
  unfold getOrCreateSchema
  rw [h]

theorem getOrCreateSchema_tables (c : Cluster) (s : String) :
    ((getOrCreateSchema c s).2).tables = c.tables := by
  unfold getOrCreateSchema
  cases alookup s c.schemas <;> simp

theorem getOrCreateSchema_nextTableID (c : Cluster) (s : String) :
    ((getOrCreateSchema c s).2).nextTableID = c.nextTableID := by
  unfold getOrCreateSchema
  cases alookup s c.schemas <;> simp

theorem clusterWF_getOrCreateSchema {c : Cluster} (hwf : ClusterWF c) (s : String) :
    ClusterWF (getOrCreateSchema c s).2 := by
  obtain ⟨h₁, h₂, h₃, h₄⟩ := hwf
  unfold getOrCreateSchema
  cases h : alookup s c.schemas with
  | some sid => exact ⟨h₁, h₂, h₃, h₄⟩
  | none =>
      refine ⟨?_, ?_, h₃, h₄⟩
      · intro p hp
        rcases List.mem_cons.mp hp with hp | hp
        · subst hp; simp
        · exact Nat.lt_trans (h₁ p hp) (Nat.lt_succ_self _)
      · intro p hp q hq hpq
        rcases List.mem_cons.mp hp with hp | hp <;> rcases List.mem_cons.mp hq with hq | hq
        · subst hp; subst hq; rfl
        · subst hp
          exact absurd (hpq ▸ h₁ q hq) (by simp)
        · subst hq
          exact absurd (hpq ▸ h₁ p hp) (by simp)
        · exact h₂ p hp q hq hpq

theorem getOrCreateSchema_fresh_ne {c : Cluster} (hwf : ClusterWF c) {s : String}
    {i : Nat} (hmem : (s, i) ∈ c.schemas) {t : String} (hne : s ≠ t) :
    (getOrCreateSchema c t).1 ≠ i := by
  obtain ⟨h₁, h₂, _, _⟩ := hwf
  unfold getOrCreateSchema
  cases h : alookup t c.schemas with
  | some j =>
      intro hji
      exact hne (h₂ (s, i) hmem (t, j) (alookup_mem h) (show i = j from hji.symm))
  | none =>
      intro hni
      exact absurd (hni ▸ h₁ (s, i) hmem) (Nat.lt_irrefl _)

theorem getOrCreateTable_of_lookup {c : Cluster} {sn tn : String} {tb : Table}
    (h : alookup (sn, tn) c.tables = some tb) (nd : String) :
    (getOrCreateTable c nd sn tn).1 = tb := by
  simp only [getOrCreateTable, getOrCreateSchema_tables, h]

theorem getOrCreateTable_lookup_self (c : Cluster) (nd sn tn : String) :
    alookup (sn, tn) ((getOrCreateTable c nd sn tn).2).tables
      = some (getOrCreateTable c nd sn tn).1 := by
  simp only [getOrCreateTable, getOrCreateSchema_tables]
  cases h : alookup (sn, tn) c.tables with
  | some t => simp [getOrCreateSchema_tables, h]
  | none => simp [alookup, h]

theorem clusterWF_getOrCreateTable {c : Cluster} (hwf : ClusterWF c) (nd sn tn : String) :
    ClusterWF (getOrCreateTable c nd sn tn).2 := by
  have hwf₁ := clusterWF_getOrCreateSchema hwf sn
  simp only [getOrCreateTable, getOrCreateSchema_tables]
  cases h : alookup (sn, tn) c.tables with
  | some t => exact hwf₁
  | none =>
      obtain ⟨h₁, h₂, h₃, h₄⟩ := hwf₁
      rw [getOrCreateSchema_tables] at h₃ h₄
      refine ⟨h₁, h₂, ?_, ?_⟩
      · intro p hp
        rcases List.mem_cons.mp hp with hp | hp
        · subst hp
          show ((getOrCreateSchema c sn).2).nextTableID
            < ((getOrCreateSchema c sn).2).nextTableID + 1
          omega
        · have hlt := h₃ p hp
          show p.2.meta.id < ((getOrCreateSchema c sn).2).nextTableID + 1
          omega
      · intro p hp q hq hpq
        rcases List.mem_cons.mp hp with hp | hp <;> rcases List.mem_cons.mp hq with hq | hq
        · subst hp; subst hq; rfl
        · subst hp
          exfalso
          have hlt := h₃ q hq
          have hq2 : ((getOrCreateSchema c sn).2).nextTableID = q.2.meta.id := hpq
          omega
        · subst hq
          exfalso
          have hlt := h₃ p hp
          have hp2 : p.2.meta.id = ((getOrCreateSchema c sn).2).nextTableID := hpq
          omega
        · exact h₄ p hp q hq hpq

theorem getOrCreateTable_fresh_ne {c : Cluster} (hwf : ClusterWF c)
    {k : String × String} {tb : Table} (hmem : (k, tb) ∈ c.tables)
    {sn tn : String} (hne : k ≠ (sn, tn)) (nd : String) :
    ((getOrCreateTable c nd sn tn).1).meta.id ≠ tb.meta.id := by
  obtain ⟨_, _, h₃, h₄⟩ := clusterWF_getOrCreateSchema hwf sn
  rw [getOrCreateSchema_tables] at h₃ h₄
  simp only [getOrCreateTable, getOrCreateSchema_tables]
  cases h : alookup (sn, tn) c.tables with
  | some t =>
      intro hid
      exact hne (h₄ (k, tb) hmem ((sn, tn), t) (alookup_mem h) hid.symm)
  | none =>
      intro hid
      have hlt : tb.meta.id < ((getOrCreateSchema c sn).2).nextTableID := h₃ (k, tb) hmem
      have hid₂ : ((getOrCreateSchema c sn).2).nextTableID = tb.meta.id := hid
      omega

theorem createCluster_ok {env : Env} {m : ManagerState} {clusterName : String}
    {n rf st : Nat} {c : Cluster} {m' : ManagerState}
    (h : CreateCluster env m clusterName n rf st = (.ok c, m')) :
    1 ≤ n ∧
    alookup clusterName m.clusters = none ∧
    c = { NewCluster ⟨m.alloc.next, clusterName, n, rf, st⟩ with shards := initialShards st } ∧
    m'.alloc = ⟨m.alloc.next + 1⟩ ∧
    m'.storage.clusterRecords
      = m.storage.clusterRecords ++ [⟨m.alloc.next, clusterName, n, rf, st⟩] ∧
    m'.clusters = aupdate clusterName c m.clusters := by
  by_cases h1 : n < 1
  · simp only [CreateCluster, if_pos h1] at h
    simp at h
  · by_cases h2 : (alookup clusterName m.clusters).isSome
    · simp only [CreateCluster, if_neg h1, if_pos h2] at h
      simp at h
    · have hnone : alookup clusterName m.clusters = none := by
        cases ho : alookup clusterName m.clusters with
        | none => rfl
        | some x => exact absurd (by simp [ho]) h2
      have hn0 : ¬n = 0 := by omega
      cases h3 : env.allocClusterIDFails with
      | true => simp [CreateCluster, hn0, h2, allocClusterID, h3] at h
      | false =>
        cases h4 : env.storageCreateFails with
        | true =>
            simp [CreateCluster, hn0, h2, allocClusterID, h3,
              storageCreateCluster, h4] at h
        | false =>
          by_cases h5 : (m.storage.clusterRecords.any
              (fun r => r.name == clusterName || r.id == m.alloc.next)) = true
          · simp [CreateCluster, hn0, h2, allocClusterID, h3,
              storageCreateCluster, h4, h5] at h
          · cases h6 : env.initFails with
            | true =>
                simp [CreateCluster, hn0, h2, allocClusterID, h3,
                  storageCreateCluster, h4, h5, clusterInit, h6] at h
            | false =>
              cases h7 : env.loadFails with
              | true =>
                  simp [CreateCluster, hn0, h2, allocClusterID, h3,
                    storageCreateCluster, h4, h5, clusterInit, h6, clusterLoad, h7] at h
              | false =>
                  simp [CreateCluster, hn0, h2, allocClusterID, h3,
                    storageCreateCluster, h4, h5, clusterInit, h6, clusterLoad, h7,
                    Prod.mk.injEq] at h
                  obtain ⟨hc, hm⟩ := h
                  subst hc
                  subst hm
                  exact ⟨by omega, hnone, rfl, rfl, rfl, rfl⟩

/-! Claim theorems. -/

/-- C2: for every name, replication factor, shard total, starting state
and environment, `CreateCluster` with `nodeCount = 0` fails with the
validation error, and on that failure no cluster record is persisted
and no cluster id is consumed: the allocator counter, the durable store
and the registry are exactly those of the pre-state. -/
theorem createCluster_zero_nodeCount_validation (env : Env) (m : ManagerState)
    (clusterName : String) (rf st : Nat) :
    CreateCluster env m clusterName 0 rf st
      = (.error (errCreateCluster "nodeCount must > 0"), m) ∧
    (errCreateCluster "nodeCount must > 0").kind = ErrKind.validation ∧
    (CreateCluster env m clusterName 0 rf st).2.alloc = m.alloc ∧
    (CreateCluster env m clusterName 0 rf st).2.storage = m.storage ∧
    (CreateCluster env m clusterName 0 rf st).2.clusters = m.clusters := by
  have heq : CreateCluster env m clusterName 0 rf st
      = (.error (errCreateCluster "nodeCount must > 0"), m) := by
    simp [CreateCluster]
  exact ⟨heq, rfl, by rw [heq], by rw [heq], by rw [heq]⟩

/-- C10: when the name is already registered (and the node count is
valid, so the duplicate check is the one that fires), `CreateCluster`
returns `ErrClusterAlreadyExists` and the post-state is exactly the
pre-state: no cluster id allocated, no storage write, registry
untouched. -/
theorem createCluster_duplicate_name_frame (env : Env) (m : ManagerState)
    (clusterName : String) (n rf st : Nat) (c : Cluster)
    (hn : 1 ≤ n) (hc : alookup clusterName m.clusters = some c) :
    CreateCluster env m clusterName n rf st = (.error errClusterAlreadyExists, m) ∧
    errClusterAlreadyExists.kind = ErrKind.alreadyExists ∧
    (CreateCluster env m clusterName n rf st).2.alloc = m.alloc ∧
    (CreateCluster env m clusterName n rf st).2.storage = m.storage ∧
    (CreateCluster env m clusterName n rf st).2.clusters = m.clusters := by
  have hn0 : ¬n = 0 := by omega
  have heq : CreateCluster env m clusterName n rf st
      = (.error errClusterAlreadyExists, m) := by
    simp [CreateCluster, hn0, hc]
  exact ⟨heq, rfl, by rw [heq], by rw [heq], by rw [heq]⟩

/-- C1: starting from a state with no persisted record for the name, a
successful `CreateCluster` followed by a second `CreateCluster` with
the same name (and a valid node count) fails the second time with
`ErrClusterAlreadyExists`, leaves the state of the first call
untouched, and exactly one persisted cluster record carries the name. -/
theorem createCluster_twice_same_name (env env₂ : Env) (m : ManagerState)
    (clusterName : String) (n rf st n₂ rf₂ st₂ : Nat) (c : Cluster) (m₁ : ManagerState)
    (h₀ : ∀ r ∈ m.storage.clusterRecords, r.name ≠ clusterName)
    (h₁ : CreateCluster env m clusterName n rf st = (.ok c, m₁))
    (hn₂ : 1 ≤ n₂) :
    CreateCluster env₂ m₁ clusterName n₂ rf₂ st₂ = (.error errClusterAlreadyExists, m₁) ∧
    errClusterAlreadyExists.kind = ErrKind.alreadyExists ∧
    recordCountFor m₁.storage clusterName = 1 := by
  obtain ⟨-, -, -, -, hstore, hclusters⟩ := createCluster_ok h₁
  have hlook : alookup clusterName m₁.clusters = some c := by
    rw [hclusters]
    exact alookup_aupdate_self _ _ _
  have hn0 : ¬n₂ = 0 := by omega
  have heq : CreateCluster env₂ m₁ clusterName n₂ rf₂ st₂
      = (.error errClusterAlreadyExists, m₁) := by
    simp [CreateCluster, hn0, hlook]
  refine ⟨heq, rfl, ?_⟩
  unfold recordCountFor
  rw [hstore, List.filter_append]
  have hz : (m.storage.clusterRecords.filter fun r => r.name == clusterName) = [] := by
    rw [List.filter_eq_nil_iff]
    intro r hr
    simpa using h₀ r hr
  simp [hz]

/-- C3: on the success path, `CreateCluster` allocates the next cluster
id from the allocator (advancing its durable counter by one), persists
exactly one record carrying that id, the given name, the node count as
`minNodeCount`, the replication factor and the shard total, returns a
cluster handle whose topology was initialized (`shardTotal` fresh
shards) and loaded (empty schema/table/node maps), and inserts that
handle into the registry under the name. -/
theorem createCluster_success_path (env : Env) (m : ManagerState) (clusterName : String)
    (n rf st : Nat) (c : Cluster) (m' : ManagerState)
    (h : CreateCluster env m clusterName n rf st = (.ok c, m')) :
    c.meta = ⟨m.alloc.next, clusterName, n, rf, st⟩ ∧
    m'.alloc = ⟨m.alloc.next + 1⟩ ∧
    m'.storage.clusterRecords
      = m.storage.clusterRecords ++ [⟨m.alloc.next, clusterName, n, rf, st⟩] ∧
    c.shards = initialShards st ∧
    c.schemas = [] ∧
    c.tables = [] ∧
    c.nodes = [] ∧
    m'.clusters = aupdate clusterName c m.clusters ∧
    alookup clusterName m'.clusters = some c := by
  obtain ⟨-, -, hcl, hal, hst, hclu⟩ := createCluster_ok h
  subst hcl
  refine ⟨rfl, hal, hst, rfl, rfl, rfl, rfl, hclu, ?_⟩
  rw [hclu]
  exact alookup_aupdate_self _ _ _

/-- C4: when the cluster record is persisted but the subsequent
topology initialization or load fails, `CreateCluster` returns an
error, the cluster is not inserted into the in-memory registry (the
pre-state registry is unchanged and a later lookup of the name yields
`ErrClusterNotFound`), and the persisted record remains as an orphan. -/
theorem createCluster_partial_failure_orphan (env : Env) (m : ManagerState)
    (clusterName : String) (n rf st : Nat)
    (hn : 1 ≤ n)
    (hcl : alookup clusterName m.clusters = none)
    (ha : env.allocClusterIDFails = false)
    (hs : env.storageCreateFails = false)
    (hdup : ∀ r ∈ m.storage.clusterRecords, r.name ≠ clusterName ∧ r.id ≠ m.alloc.next)
    (hfail : env.initFails = true ∨ env.loadFails = true) :
    resultErrKind (CreateCluster env m clusterName n rf st).1 = some ErrKind.storageErr ∧
    (CreateCluster env m clusterName n rf st).2.clusters = m.clusters ∧
    (CreateCluster env m clusterName n rf st).2.storage.clusterRecords
      = m.storage.clusterRecords ++ [⟨m.alloc.next, clusterName, n, rf, st⟩] ∧
    getCluster (CreateCluster env m clusterName n rf st).2 clusterName
      = .error (errClusterNotFound clusterName) ∧
    (errClusterNotFound clusterName).kind = ErrKind.notFound := by
  have hn0 : ¬n = 0 := by omega
  have h5 : (m.storage.clusterRecords.any
      (fun r => r.name == clusterName || r.id == m.alloc.next)) = false := by
    rw [List.any_eq_false]
    intro r hr
    simp [(hdup r hr).1, (hdup r hr).2]
  cases h6 : env.initFails with
  | true =>
      have heq : CreateCluster env m clusterName n rf st
          = (.error (wrapErr ("clusters manager CreateCluster, clusterName:" ++ clusterName)
              ⟨ErrKind.storageErr, "fail to init cluster"⟩),
             { m with alloc := ⟨m.alloc.next + 1⟩,
                      storage := ⟨m.storage.clusterRecords
                        ++ [⟨m.alloc.next, clusterName, n, rf, st⟩]⟩ }) := by
        simp [CreateCluster, hn0, hcl, allocClusterID, ha, storageCreateCluster, hs, h5,
          clusterInit, h6]
      rw [heq]
      exact ⟨rfl, rfl, rfl, by simp [getCluster, hcl], rfl⟩
  | false =>
      have h7 : env.loadFails = true := by
        rcases hfail with hf | hf
        · rw [hf] at h6
          cases h6
        · exact hf
      have heq : CreateCluster env m clusterName n rf st
          = (.error (wrapErr ("clusters manager CreateCluster, clusterName:" ++ clusterName)
              ⟨ErrKind.storageErr, "fail to load cluster"⟩),
             { m with alloc := ⟨m.alloc.next + 1⟩,
                      storage := ⟨m.storage.clusterRecords
                        ++ [⟨m.alloc.next, clusterName, n, rf, st⟩]⟩ }) := by
        simp [CreateCluster, hn0, hcl, allocClusterID, ha, storageCreateCluster, hs, h5,
          clusterInit, h6, clusterLoad, h7]
      rw [heq]
      exact ⟨rfl, rfl, rfl, by simp [getCluster, hcl], rfl⟩

/-- C5: every manager operation on a cluster name that is not in the
registry fails with the (wrapped) `ErrClusterNotFound`, whose kind is
distinguishable from the validation and already-exists kinds, and the
manager state is returned unchanged: no work is delegated to any
cluster. -/
theorem unknown_cluster_notFound (env : Env) (m : ManagerState)
    (cn nd sn tn : String) (ids : List Nat) (tid lease : Nat)
    (h : alookup cn m.clusters = none) :
    GetShards m cn nd
      = (.error (wrapErr "clusters manager GetShards" (errClusterNotFound cn)), m) ∧
    GetTables m cn nd ids
      = (.error (wrapErr "clusters manager GetTables" (errClusterNotFound cn)), m) ∧
    DropTable m cn sn tn tid
      = (.error (wrapErr "clusters manager DropTable" (errClusterNotFound cn)), m) ∧
    RegisterNode env m cn nd lease
      = (.error (wrapErr "clusters manager RegisterNode" (errClusterNotFound cn)), m) ∧
    AllocSchemaID m cn sn
      = (.error (wrapErr "clusters manager AllocSchemaID" (errClusterNotFound cn)), m) ∧
    AllocTableID m cn sn tn nd
      = (.error (wrapErr "clusters manager AllocTableID" (errClusterNotFound cn)), m) ∧
    (wrapErr "clusters manager GetShards" (errClusterNotFound cn)).kind = ErrKind.notFound ∧
    ErrKind.notFound ≠ ErrKind.validation ∧
    ErrKind.notFound ≠ ErrKind.alreadyExists := by
  have hg : getCluster m cn = .error (errClusterNotFound cn) := by simp [getCluster, h]
  refine ⟨?_, ?_, ?_, ?_, ?_, ?_, rfl, by decide, by decide⟩ <;>
    simp [GetShards, GetTables, DropTable, RegisterNode, AllocSchemaID, AllocTableID, hg]

theorem alookup_clusterGetTables_none {c : Cluster} {sid : Nat}
    (h : alookup sid c.shards = none) (ids : List Nat) (nd : String) :
    alookup sid (clusterGetTables c ids nd) = none := by
  induction ids with
  | nil => simp [clusterGetTables, alookup]
  | cons a l ih =>
      simp only [clusterGetTables, List.filterMap_cons] at ih ⊢
      cases ha : alookup a c.shards with
      | none => simpa [ha] using ih
      | some sh =>
          have hane : ¬a = sid := by
            intro hx
            rw [hx, h] at ha
            cases ha
          simpa [alookup, hane] using ih

theorem scatterAssign_nodes (c : Cluster) : (scatterAssign c).nodes = c.nodes := by
  simp only [scatterAssign]
  split <;> rfl

/-- C6: against any registered, well-formed cluster, repeated
`AllocSchemaID` calls with the same schema name return the same schema
id while a distinct name yields a distinct id; and repeated
`AllocTableID` calls with the same (schema, table) pair return the same
table id while a distinct pair yields a distinct table id. -/
theorem allocIDs_idempotent_and_distinct (m : ManagerState)
    (cn s t s₁ t₁ s₂ t₂ nd nd₁ nd₂ : String)
    (c : Cluster) (i₁ i₁' i₂ : Nat) (m₁ m₂ m₃ n₁ n₂ n₃ : ManagerState)
    (tb₁ tb₁' tb₂ : Table)
    (hc : alookup cn m.clusters = some c)
    (hwf : ClusterWF c)
    (hst : s ≠ t)
    (h₁ : AllocSchemaID m cn s = (.ok i₁, m₁))
    (h₂ : AllocSchemaID m₁ cn s = (.ok i₁', m₂))
    (h₃ : AllocSchemaID m₁ cn t = (.ok i₂, m₃))
    (hpair : (s₁, t₁) ≠ (s₂, t₂))
    (h₄ : AllocTableID m cn s₁ t₁ nd = (.ok tb₁, n₁))
    (h₅ : AllocTableID n₁ cn s₁ t₁ nd₁ = (.ok tb₁', n₂))
    (h₆ : AllocTableID n₁ cn s₂ t₂ nd₂ = (.ok tb₂, n₃)) :
    i₁' = i₁ ∧ i₂ ≠ i₁ ∧ tb₁'.meta.id = tb₁.meta.id ∧ tb₂.meta.id ≠ tb₁.meta.id := by
  have hg : getCluster m cn = .ok c := by simp [getCluster, hc]
  simp only [AllocSchemaID, hg, Prod.mk.injEq, Except.ok.injEq] at h₁
  obtain ⟨hi₁, hm₁⟩ := h₁
  have hcm₁ : alookup cn m₁.clusters = some (getOrCreateSchema c s).2 := by
    rw [← hm₁]
    exact alookup_aupdate_self _ _ _
  have hg₁ : getCluster m₁ cn = .ok (getOrCreateSchema c s).2 := by
    simp [getCluster, hcm₁]
  simp only [AllocSchemaID, hg₁, Prod.mk.injEq, Except.ok.injEq] at h₂ h₃
  obtain ⟨hi₁', hm₂⟩ := h₂
  obtain ⟨hi₂, hm₃⟩ := h₃
  have hlook : alookup s ((getOrCreateSchema c s).2).schemas = some i₁ := by
    rw [← hi₁]
    exact getOrCreateSchema_lookup_self c s
  have hA : i₁' = i₁ := by
    rw [← hi₁', getOrCreateSchema_of_lookup hlook]
  have hwf₁ : ClusterWF (getOrCreateSchema c s).2 := clusterWF_getOrCreateSchema hwf s
  have hmem : (s, i₁) ∈ ((getOrCreateSchema c s).2).schemas := alookup_mem hlook
  have hB : i₂ ≠ i₁ := by
    rw [← hi₂]
    exact getOrCreateSchema_fresh_ne hwf₁ hmem hst
  simp only [AllocTableID, hg, Prod.mk.injEq, Except.ok.injEq] at h₄
  obtain ⟨htb₁, hn₁⟩ := h₄
  have hcn₁ : alookup cn n₁.clusters = some (getOrCreateTable c nd s₁ t₁).2 := by
    rw [← hn₁]
    exact alookup_aupdate_self _ _ _
  have hgn₁ : getCluster n₁ cn = .ok (getOrCreateTable c nd s₁ t₁).2 := by
    simp [getCluster, hcn₁]
  simp only [AllocTableID, hgn₁, Prod.mk.injEq, Except.ok.injEq] at h₅ h₆
  obtain ⟨htb₁', hn₂⟩ := h₅
  obtain ⟨htb₂, hn₃⟩ := h₆
  have hlookT : alookup (s₁, t₁) ((getOrCreateTable c nd s₁ t₁).2).tables = some tb₁ := by
    rw [← htb₁]
    exact getOrCreateTable_lookup_self c nd s₁ t₁
  have hC : tb₁'.meta.id = tb₁.meta.id := by
    rw [← htb₁', getOrCreateTable_of_lookup hlookT nd₁]
  have hwfT : ClusterWF (getOrCreateTable c nd s₁ t₁).2 :=
    clusterWF_getOrCreateTable hwf nd s₁ t₁
  have hmemT : ((s₁, t₁), tb₁) ∈ ((getOrCreateTable c nd s₁ t₁).2).tables :=
    alookup_mem hlookT
  have hD : tb₂.meta.id ≠ tb₁.meta.id := by
    rw [← htb₂]
    exact getOrCreateTable_fresh_ne hwfT hmemT hpair nd₂
  exact ⟨hA, hB, hC, hD⟩

/-- C8: for a registered cluster, `GetTables` succeeds without touching
the manager state and returns exactly the cluster's shard-to-tables
view with every entry projected by `projectShardTables`: per shard its
role and version, and one flattened `TableInfo` (table id and name plus
schema id and name) per table of that shard. -/
theorem getTables_projection (m : ManagerState) (cn nd : String) (ids : List Nat)
    (c : Cluster) (hc : alookup cn m.clusters = some c) :
    GetTables m cn nd ids
      = (.ok ((clusterGetTables c ids nd).map fun p => (p.1, projectShardTables p.2)), m) := by
  simp [GetTables, getCluster, hc]

/-- C9: the key set of the map returned by `GetTables` equals the key
set of the underlying cluster view rather than the requested id list: a
requested shard id absent from the cluster's shard map is silently
omitted (no entry, no error), and every key of the result is a key of
the view. -/
theorem getTables_keys_match_view (m : ManagerState) (cn nd : String) (ids : List Nat)
    (sid : Nat) (p : Nat × ShardTables) (c : Cluster)
    (hc : alookup cn m.clusters = some c)
    (_hsid : sid ∈ ids)
    (habs : alookup sid c.shards = none)
    (hp : p ∈ getTablesRet m cn nd ids) :
    resultErrKind (GetTables m cn nd ids).1 = none ∧
    (getTablesRet m cn nd ids).map Prod.fst = (clusterGetTables c ids nd).map Prod.fst ∧
    alookup sid (getTablesRet m cn nd ids) = none ∧
    p.1 ∈ (clusterGetTables c ids nd).map Prod.fst := by
  have hret : getTablesRet m cn nd ids
      = (clusterGetTables c ids nd).map fun q => (q.1, projectShardTables q.2) := by
    simp [getTablesRet, GetTables, getCluster, hc]
  refine ⟨by simp [GetTables, getCluster, hc, resultErrKind], ?_, ?_, ?_⟩
  · rw [hret, List.map_map]
    rfl
  · rw [hret, alookup_map_value projectShardTables sid (clusterGetTables c ids nd),
      alookup_clusterGetTables_none habs ids nd]
    rfl
  · rw [hret] at hp
    obtain ⟨q, hq, hpq⟩ := List.mem_map.mp hp
    rw [← hpq]
    exact List.mem_map.mpr ⟨q, hq, rfl⟩

/-- C7: a successful `RegisterNode` on a registered cluster first
upserts the node's lease, then runs the coordinator's shard scatter to
completion before returning; the registry afterwards holds exactly the
scattered cluster, so a subsequent `GetShards` or `GetTables` call
observes the scatter triggered by that registration. -/
theorem registerNode_scatter_before_return (env : Env) (m : ManagerState)
    (cn nn : String) (lease : Nat) (ids : List Nat) (c : Cluster) (m' : ManagerState)
    (hc : alookup cn m.clusters = some c)
    (h : RegisterNode env m cn nn lease = (.ok (), m')) :
    clusterRegisterNode env c nn lease = .ok { c with nodes := aupdate nn lease c.nodes } ∧
    scatterShard env { c with nodes := aupdate nn lease c.nodes }
      = .ok (scatteredAfterRegister c nn lease) ∧
    m'.clusters = aupdate cn (scatteredAfterRegister c nn lease) m.clusters ∧
    alookup cn m'.clusters = some (scatteredAfterRegister c nn lease) ∧
    GetShards m' cn nn = (.ok (assignedShardIDs (scatteredAfterRegister c nn lease) nn), m') ∧
    GetTables m' cn nn ids
      = (.ok ((clusterGetTables (scatteredAfterRegister c nn lease) ids nn).map fun p =>
          (p.1, projectShardTables p.2)), m') := by
  have hg : getCluster m cn = .ok c := by simp [getCluster, hc]
  cases hr : env.registerNodeFails with
  | true => simp [RegisterNode, hg, clusterRegisterNode, hr] at h
  | false =>
    cases hsc : env.scatterFails with
    | true => simp [RegisterNode, hg, clusterRegisterNode, hr, scatterShard, hsc] at h
    | false =>
      simp only [RegisterNode, hg, clusterRegisterNode, hr, Bool.false_eq_true, if_false,
        scatterShard, hsc, Prod.mk.injEq, true_and] at h
      have hm' : m'.clusters = aupdate cn (scatteredAfterRegister c nn lease) m.clusters := by
        rw [← h]
        rfl
      have hlookm' : alookup cn m'.clusters = some (scatteredAfterRegister c nn lease) := by
        rw [hm']
        exact alookup_aupdate_self _ _ _
      have hga : getCluster m' cn = .ok (scatteredAfterRegister c nn lease) := by
        simp [getCluster, hlookm']
      have hnodes : alookup nn ((scatteredAfterRegister c nn lease).nodes) = some lease := by
        simp only [scatteredAfterRegister, scatterAssign_nodes]
        exact alookup_aupdate_self _ _ _
      refine ⟨by simp [clusterRegisterNode, hr], by simp [scatterShard, hsc,
        scatteredAfterRegister], hm', hlookm', ?_, ?_⟩
      · simp [GetShards, hga, getShardIDs, hnodes]
      · simp [GetTables, hga]

/-- Witness for C1 at the concrete scenario states. -/
theorem createCluster_twice_same_name_witness :
    CreateCluster envOk mgr1 "db1" 3 2 4 = (.error errClusterAlreadyExists, mgr1) ∧
    errClusterAlreadyExists.kind = ErrKind.alreadyExists ∧
    recordCountFor mgr1.storage "db1" = 1 :=
  createCluster_twice_same_name envOk envOk mgr0 "db1" 3 2 4 3 2 4 clusterDb1 mgr1
    (by decide) (by decide) (by decide)

/-- Witness for C3 at the concrete scenario states. -/
theorem createCluster_success_path_witness :
    clusterDb1.meta = ⟨mgr0.alloc.next, "db1", 3, 2, 4⟩ ∧
    mgr1.alloc = ⟨mgr0.alloc.next + 1⟩ ∧
    mgr1.storage.clusterRecords
      = mgr0.storage.clusterRecords ++ [⟨mgr0.alloc.next, "db1", 3, 2, 4⟩] ∧
    clusterDb1.shards = initialShards 4 ∧
    clusterDb1.schemas = [] ∧
    clusterDb1.tables = [] ∧
    clusterDb1.nodes = [] ∧
    mgr1.clusters = aupdate "db1" clusterDb1 mgr0.clusters ∧
    alookup "db1" mgr1.clusters = some clusterDb1 :=
  createCluster_success_path envOk mgr0 "db1" 3 2 4 clusterDb1 mgr1 (by decide)

/-- Witness for C4 at the concrete scenario states. -/
theorem createCluster_partial_failure_orphan_witness :
    resultErrKind (CreateCluster envInitFail mgr0 "db1" 3 2 4).1 = some ErrKind.storageErr ∧
    (CreateCluster envInitFail mgr0 "db1" 3 2 4).2.clusters = mgr0.clusters ∧
    (CreateCluster envInitFail mgr0 "db1" 3 2 4).2.storage.clusterRecords
      = mgr0.storage.clusterRecords ++ [⟨mgr0.alloc.next, "db1", 3, 2, 4⟩] ∧
    getCluster (CreateCluster envInitFail mgr0 "db1" 3 2 4).2 "db1"
      = .error (errClusterNotFound "db1") ∧
    (errClusterNotFound "db1").kind = ErrKind.notFound :=
  createCluster_partial_failure_orphan envInitFail mgr0 "db1" 3 2 4
    (by decide) (by decide) rfl rfl (by decide) (Or.inl rfl)

/-- Witness for C5 at a concrete state with an empty registry. -/
theorem unknown_cluster_notFound_witness :
    GetShards mgr0 "missing" "n"
      = (.error (wrapErr "clusters manager GetShards" (errClusterNotFound "missing")), mgr0) ∧
    GetTables mgr0 "missing" "n" []
      = (.error (wrapErr "clusters manager GetTables" (errClusterNotFound "missing")), mgr0) ∧
    DropTable mgr0 "missing" "s" "t" 0
      = (.error (wrapErr "clusters manager DropTable" (errClusterNotFound "missing")), mgr0) ∧
    RegisterNode envOk mgr0 "missing" "n" 0
      = (.error (wrapErr "clusters manager RegisterNode" (errClusterNotFound "missing")), mgr0) ∧
    AllocSchemaID mgr0 "missing" "s"
      = (.error (wrapErr "clusters manager AllocSchemaID" (errClusterNotFound "missing")), mgr0) ∧
    AllocTableID mgr0 "missing" "s" "t" "n"
      = (.error (wrapErr "clusters manager AllocTableID" (errClusterNotFound "missing")), mgr0) ∧
    (wrapErr "clusters manager GetShards" (errClusterNotFound "missing")).kind
      = ErrKind.notFound ∧
    ErrKind.notFound ≠ ErrKind.validation ∧
    ErrKind.notFound ≠ ErrKind.alreadyExists :=
  unknown_cluster_notFound envOk mgr0 "missing" "n" "s" "t" [] 0 0 (by decide)

/-- Witness for C6 at the concrete scenario states. -/
theorem allocIDs_idempotent_and_distinct_witness :
    (1 : Nat) = 1 ∧ (2 : Nat) ≠ 1 ∧
    tbTa.meta.id = tbTa.meta.id ∧ tbTb.meta.id ≠ tbTa.meta.id :=
  allocIDs_idempotent_and_distinct mgr1 "db1" "a" "b" "sa" "ta" "sa" "tb" "n1" "n2" "n3"
    clusterDb1 1 1 2 mgrA mgrA mgrAB mgrT mgrT mgrT2 tbTa tbTa tbTb
    (by decide) (by decide) (by decide) (by decide) (by decide) (by decide)
    (by decide) (by decide) (by decide) (by decide)

/-- Witness for C7 at the concrete scenario states. -/
theorem registerNode_scatter_before_return_witness :
    clusterRegisterNode envOk clusterDb1 "node-1" 30
      = .ok { clusterDb1 with nodes := aupdate "node-1" 30 clusterDb1.nodes } ∧
    scatterShard envOk { clusterDb1 with nodes := aupdate "node-1" 30 clusterDb1.nodes }
      = .ok (scatteredAfterRegister clusterDb1 "node-1" 30) ∧
    mgrReg.clusters = aupdate "db1" (scatteredAfterRegister clusterDb1 "node-1" 30) mgr1.clusters ∧
    alookup "db1" mgrReg.clusters = some (scatteredAfterRegister clusterDb1 "node-1" 30) ∧
    GetShards mgrReg "db1" "node-1"
      = (.ok (assignedShardIDs (scatteredAfterRegister clusterDb1 "node-1" 30) "node-1"), mgrReg) ∧
    GetTables mgrReg "db1" "node-1" [0]
      = (.ok ((clusterGetTables (scatteredAfterRegister clusterDb1 "node-1" 30) [0] "node-1").map
          fun p => (p.1, projectShardTables p.2)), mgrReg) :=
  registerNode_scatter_before_return envOk mgr1 "db1" "node-1" 30 [0] clusterDb1 mgrReg
    (by decide) (by decide)

/-- Witness for C8 at the concrete scenario states. -/
theorem getTables_projection_witness :
    GetTables mgr1 "db1" "node-1" [0, 5]
      = (.ok ((clusterGetTables clusterDb1 [0, 5] "node-1").map
          fun p => (p.1, projectShardTables p.2)), mgr1) :=
  getTables_projection mgr1 "db1" "node-1" [0, 5] clusterDb1 (by decide)

/-- Witness for C9 at the concrete scenario states: shard id 5 is
requested but absent from the view, shard id 0 is present. -/
theorem getTables_keys_match_view_witness :
    resultErrKind (GetTables mgr1 "db1" "node-1" [0, 5]).1 = none ∧
    (getTablesRet mgr1 "db1" "node-1" [0, 5]).map Prod.fst
      = (clusterGetTables clusterDb1 [0, 5] "node-1").map Prod.fst ∧
    alookup 5 (getTablesRet mgr1 "db1" "node-1" [0, 5]) = none ∧
    ((0 : Nat), (⟨ShardRole.follower, [], 0⟩ : ShardTables)).1
      ∈ (clusterGetTables clusterDb1 [0, 5] "node-1").map Prod.fst :=
  getTables_keys_match_view mgr1 "db1" "node-1" [0, 5] 5
    (0, ⟨ShardRole.follower, [], 0⟩) clusterDb1
    (by decide) (by decide) (by decide) (by decide)

/-- Witness for C10 at the concrete scenario states. -/
theorem createCluster_duplicate_name_frame_witness :
    CreateCluster envOk mgr1 "db1" 3 2 4 = (.error errClusterAlreadyExists, mgr1) ∧
    errClusterAlreadyExists.kind = ErrKind.alreadyExists ∧
    (CreateCluster envOk mgr1 "db1" 3 2 4).2.alloc = mgr1.alloc ∧
    (CreateCluster envOk mgr1 "db1" 3 2 4).2.storage = mgr1.storage ∧
    (CreateCluster envOk mgr1 "db1" 3 2 4).2.clusters = mgr1.clusters :=
  createCluster_duplicate_name_frame envOk mgr1 "db1" 3 2 4 clusterDb1 (by decide) (by decide)
